import Mathlib

/-!
Shallow embedding of the TD_SHT31 Arduino driver (TD_SHT31.cpp / TD_SHT31.h).

The I2C bus collaborator (`TwoWire`) is modelled as a scripted oracle
(`Wire`): the return values of `write`, `endTransmission` and
`requestFrom`, and the bytes delivered by `read()`, are fields of the
script.  Every bus interaction and the blocking conversion delay are
recorded in an event trace, so that claims about "no bus traffic" and
about delay ordering are statements about the trace.  Machine integers
are `Nat` with explicit `% 256` / `% 65536` where C truncation happens;
the `float` fields `_temperature` / `_humidity` are modelled over `ℚ`
with the exact values of the C conversion formulas.
-/

/-! ## Command and error constants (TD_SHT31.h) -/

def CMD_SS_CSD_HIGH : Nat := 0x2400
def CMD_SS_CSD_MEDIUM : Nat := 0x240B
def CMD_SS_CSD_LOW : Nat := 0x2416
def CMD_SOFT_RESET : Nat := 0x30A2
def CMD_GCALL_RESET : Nat := 0x0006
def CMD_READ_STATUS : Nat := 0xF32D
def CMD_CLEAR_STATUS : Nat := 0x3041

def NO_ERROR : Nat := 0b0000000000000000
def ERROR_TRANSMISSION_LEN : Nat := 0b0000000000000001
def ERROR_END_TRANSMISSION : Nat := 0b0000000000000010
def ERROR_REQUEST_LEN : Nat := 0b0000000000000100
def ERROR_WRITE_LEN : Nat := 0b0000000000001000
def ERROR_WRONG_SENSOR_ID : Nat := 0b0000000000010000
def ERROR_FM_TIMEOUT : Nat := 0b0000000000100000
def ERROR_NOT_CONNECTED : Nat := 0b0000000001000000
def ERROR_CRC_CHECK : Nat := 0b0000000010000000
def ERROR_WRONG_COMMAND : Nat := 0b0000000100000001

/-! ## crc8 (TD_SHT31.cpp lines 314-328) -/

/-- One iteration of the inner bit loop of `TD_SHT31::crc8`:
`crc = (crc & 0x80) ? (crc << 1) ^ POLY : (crc << 1);` with the result
truncated to `uint8_t`. -/
def crc8Round (crc : Nat) : Nat :=
  if crc &&& 0x80 ≠ 0 then ((crc <<< 1) ^^^ 0x31) % 256 else (crc <<< 1) % 256

/-- The inner loop `for (uint8_t i = 8; i; --i)` of `TD_SHT31::crc8`. -/
def crc8Bits : Nat → Nat → Nat
  | 0, crc => crc
  | i + 1, crc => crc8Bits i (crc8Round crc)

/-- The outer loop `for (uint8_t j = len; j; --j)` of `TD_SHT31::crc8`:
`crc ^= *data++` (`uint8_t` xor) followed by the 8-bit inner loop. -/
def crc8Core : List Nat → Nat → Nat
  | [], crc => crc
  | b :: rest, crc => crc8Core rest (crc8Bits 8 (crc ^^^ b % 256))

/-- `TD_SHT31::crc8(data, len)`: initial value `0xFF`. -/
def crc8 (data : List Nat) : Nat :=
  crc8Core data 0xFF

/-- Modelled from the spec (§4.1 Checksum module), for comparison with
`crc8`: "initial value 0xFF, polynomial 0x31, most-significant-bit-first,
no input/output reflection, no final XOR.  For each input byte: XOR into
the running value, then for each of 8 bit positions, if the top bit is
set, shift left and XOR with the polynomial, else shift left." -/
def checksumStep (c : Nat) : Nat :=
  if Nat.testBit c 7 then (c * 2 ^^^ 0x31) % 256 else c * 2 % 256

def checksum (bytes : List Nat) : Nat :=
  bytes.foldl (fun c b => checksumStep^[8] ((c ^^^ b) % 256)) 0xFF

/-! ## Session state and bus model -/

/-- The private state of a `TD_SHT31` object that the modelled operations
touch: `_error_code`, `_temperature`, `_humidity`, `_useCRC`, `_tUnit`,
`_i2c_device_address`. -/
structure SHT31State where
  error_code : Nat
  temperature : ℚ
  humidity : ℚ
  useCRC : Bool
  tUnit : Bool
  addr : Nat
  deriving Repr, DecidableEq

/-- One bus event, recorded in program order.  `delayMs` records the
blocking `delay(u8Delay)` call. -/
inductive BusEvent where
  | beginTx (addr : Nat)
  | write (bytes : List Nat) (ret : Nat)
  | endTx (ret : Nat)
  | requestFrom (addr len ret : Nat)
  | readByte (b : Nat)
  | delayMs (ms : Nat)
  deriving Repr, DecidableEq

/-- A scripted behaviour of the `TwoWire` collaborator for one public
call: return value of the 2-byte `write`, of `endTransmission` (twice,
for the reset path's dummy call), of `requestFrom`, and the byte stream
served by `read()`. -/
structure Wire where
  writeRet : Nat
  endRet : Nat
  endRet2 : Nat
  reqRet : Nat
  rxData : List Nat
  deriving Repr, DecidableEq

/-- Result of an operation: return value, post-state, bus-event trace. -/
structure OpRes (α : Type) where
  ret : α
  state : SHT31State
  trace : List BusEvent
  deriving Repr

/-- `_error_code |= f` as done at every fault site in the source. -/
def recordError (s : SHT31State) (f : Nat) : SHT31State :=
  { s with error_code := s.error_code ||| f }

/-- Byte `i` served by the wire script (`read()` call number `i`). -/
def rx (w : Wire) (i : Nat) : Nat :=
  w.rxData.getD i 0

/-! ## Transaction codec (TD_SHT31.cpp lines 223-236, 290-306) -/

/-- `TD_SHT31::writeCommand` (lines 290-306): split the command into
big-endian bytes, write 2 bytes (short write records `ERROR_WRITE_LEN`
but is not fatal), then `endTransmission` (nonzero status records
`ERROR_END_TRANSMISSION` and fails the call). -/
def writeCommand (w : Wire) (s : SHT31State) (command : Nat) : OpRes Bool :=
  let buffer := [command % 65536 >>> 8, command % 256]
  let t := [BusEvent.beginTx s.addr, BusEvent.write buffer w.writeRet,
    BusEvent.endTx w.endRet]
  let s1 := if w.writeRet ≠ 2 then recordError s ERROR_WRITE_LEN else s
  if w.endRet ≠ 0 then ⟨false, recordError s1 ERROR_END_TRANSMISSION, t⟩
  else ⟨true, s1, t⟩

/-- `TD_SHT31::readBytes` (lines 223-236): `requestFrom` must return
exactly `len`; then `len` single-byte `read()` calls fill the buffer.
A short answer records `ERROR_REQUEST_LEN` and fails. -/
def readBytes (w : Wire) (s : SHT31State) (len : Nat) : OpRes (Option (List Nat)) :=
  let ev := BusEvent.requestFrom s.addr len w.reqRet
  if w.reqRet = len then
    let bytes := (List.range len).map fun i => rx w i
    ⟨some bytes, s, ev :: bytes.map BusEvent.readByte⟩
  else
    ⟨none, recordError s ERROR_REQUEST_LEN, [ev]⟩

/-! ## Public operations -/

/-- `TD_SHT31::resetSensor` (lines 94-119): any command other than
`CMD_SOFT_RESET` / `CMD_GCALL_RESET` is rejected with
`ERROR_WRONG_COMMAND` before any bus call; otherwise a 2-byte write is
issued, `endTransmission` is called twice (the first is the source's
"dummy call") and the second status decides success. -/
def resetSensor (w : Wire) (s : SHT31State) (command : Nat) : OpRes Bool :=
  let buffer := [command % 65536 >>> 8, command % 256]
  if command ≠ CMD_SOFT_RESET ∧ command ≠ CMD_GCALL_RESET then
    ⟨false, recordError s ERROR_WRONG_COMMAND, []⟩
  else
    let t := [BusEvent.beginTx s.addr, BusEvent.write buffer w.writeRet,
      BusEvent.endTx w.endRet, BusEvent.endTx w.endRet2]
    let s1 := if w.writeRet ≠ 2 then recordError s ERROR_WRITE_LEN else s
    if w.endRet2 ≠ 0 then ⟨false, recordError s1 ERROR_END_TRANSMISSION, t⟩
    else ⟨true, s1, t⟩

/-- The conversion block of `TD_SHT31::readSensorData` (lines 270-280):
`_temperature` from bytes 0-1 by the Celsius or Fahrenheit formula
according to `_tUnit`, `_humidity` from bytes 3-4. -/
def convertData (buf : List Nat) (s : SHT31State) : SHT31State :=
  let data := (buf.getD 0 0 <<< 8) + buf.getD 1 0
  let temp : ℚ :=
    if s.tUnit then data * (175 / 65535 : ℚ) - 45
    else data * (315 / 65535 : ℚ) - 49
  let data2 := (buf.getD 3 0 <<< 8) + buf.getD 4 0
  { s with temperature := temp, humidity := data2 * (100 / 65535 : ℚ) }

/-- `TD_SHT31::readSensorData` (lines 248-283): read 6 bytes; if
`_useCRC`, both checksum trailers must match `crc8` of the preceding two
bytes (mismatch records `ERROR_CRC_CHECK` and fails); then convert. -/
def readSensorData (w : Wire) (s : SHT31State) : OpRes Bool :=
  let r := readBytes w s 6
  match r.ret with
  | none => ⟨false, r.state, r.trace⟩
  | some buf =>
    if r.state.useCRC then
      if buf.getD 2 0 ≠ crc8 [buf.getD 0 0, buf.getD 1 0] then
        ⟨false, recordError r.state ERROR_CRC_CHECK, r.trace⟩
      else if buf.getD 5 0 ≠ crc8 [buf.getD 3 0, buf.getD 4 0] then
        ⟨false, recordError r.state ERROR_CRC_CHECK, r.trace⟩
      else ⟨true, convertData buf r.state, r.trace⟩
    else ⟨true, convertData buf r.state, r.trace⟩

/-- `TD_SHT31::runSingleShot` (lines 127-160).  The caller's output
variables `*fT`, `*fH` are modelled as in/out values: on success they
become `_temperature` / `_humidity`, on failure they keep their prior
values.  Result carries (ok, post-state, fT, fH, trace). -/
def runSingleShot (w : Wire) (s : SHT31State) (cmd : Nat) (fT fH : ℚ) :
    Bool × SHT31State × ℚ × ℚ × List BusEvent :=
  if cmd ≠ CMD_SS_CSD_HIGH ∧ cmd ≠ CMD_SS_CSD_MEDIUM ∧ cmd ≠ CMD_SS_CSD_LOW then
    (false, recordError s ERROR_WRONG_COMMAND, fT, fH, [])
  else
    let wr := writeCommand w s cmd
    if wr.ret = false then (false, wr.state, fT, fH, wr.trace)
    else
      let u8Delay : Nat :=
        if cmd = CMD_SS_CSD_HIGH then 16
        else if cmd = CMD_SS_CSD_MEDIUM then 7
        else if cmd = CMD_SS_CSD_LOW then 5
        else 16
      let rd := readSensorData w wr.state
      if rd.ret then
        (true, rd.state, rd.state.temperature, rd.state.humidity,
          wr.trace ++ BusEvent.delayMs u8Delay :: rd.trace)
      else
        (false, rd.state, fT, fH,
          wr.trace ++ BusEvent.delayMs u8Delay :: rd.trace)

/-- C++ implicit integer-to-`bool` conversion (nonzero is `true`),
needed to model `return 0xFFFF;` inside the `bool` function
`clearSensorStatus`. -/
def boolOfInt (n : Nat) : Bool :=
  n ≠ 0

/-- `TD_SHT31::clearSensorStatus` (lines 167-174), modelled faithfully:
when the command write fails the source executes `return 0xFFFF;` in a
`bool`-returning function, which converts to `true`. -/
def clearSensorStatus (w : Wire) (s : SHT31State) : OpRes Bool :=
  let wr := writeCommand w s CMD_CLEAR_STATUS
  if wr.ret = false then ⟨boolOfInt 0xFFFF, wr.state, wr.trace⟩
  else ⟨true, wr.state, wr.trace⟩

/-- `TD_SHT31::readSensorStatus` (lines 181-204): write `CMD_READ_STATUS`,
read 3 bytes, compare the trailer against `crc8` of the first two bytes
(unconditionally — the source has no `_useCRC` guard here), return the
big-endian status word, or `0xFFFF` on any failure. -/
def readSensorStatus (w : Wire) (s : SHT31State) : OpRes Nat :=
  let wr := writeCommand w s CMD_READ_STATUS
  if wr.ret = false then ⟨0xFFFF, wr.state, wr.trace⟩
  else
    let r := readBytes w wr.state 3
    match r.ret with
    | none => ⟨0xFFFF, r.state, wr.trace ++ r.trace⟩
    | some buf =>
      if buf.getD 2 0 ≠ crc8 [buf.getD 0 0, buf.getD 1 0] then
        ⟨0xFFFF, recordError r.state ERROR_CRC_CHECK, wr.trace ++ r.trace⟩
      else
        ⟨(buf.getD 0 0 <<< 8) + buf.getD 1 0, r.state, wr.trace ++ r.trace⟩

/-- `TD_SHT31::getLastError` (lines 211-216): return `_error_code` and
reset it to `NO_ERROR`. -/
def getLastError (s : SHT31State) : Nat × SHT31State :=
  (s.error_code, { s with error_code := NO_ERROR })

/-! ## Helper concrete states and wires used by witnesses -/

/-- Post-constructor state (`TD_SHT31::TD_SHT31`): CRC enabled, Celsius,
no error; the uninitialized measurement floats are taken as 0. -/
def initState : SHT31State :=
  ⟨NO_ERROR, 0, 0, true, true, 0x44⟩

/-- Same state after `set_defaults(DISABLE_CRC, CELSIUS)`. -/
def initStateNoCrc : SHT31State :=
  ⟨NO_ERROR, 0, 0, false, true, 0x44⟩

/-! ## crc8 agrees with the spec's reference checksum -/

lemma crc8Round_lt (c : Nat) : crc8Round c < 256 := by
  unfold crc8Round
  split <;> exact Nat.mod_lt _ (by norm_num)

lemma checksumStep_lt (c : Nat) : checksumStep c < 256 := by
  unfold checksumStep
  split <;> exact Nat.mod_lt _ (by norm_num)

set_option maxRecDepth 2048 in
lemma crc8Round_eq_fin : ∀ c : Fin 256, crc8Round c.val = checksumStep c.val := by
  decide

lemma crc8Round_eq_checksumStep (c : Nat) (h : c < 256) :
    crc8Round c = checksumStep c :=
  crc8Round_eq_fin ⟨c, h⟩

lemma crc8Bits_eq_iterate (n c : Nat) (h : c < 256) :
    crc8Bits n c = checksumStep^[n] c := by
  induction n generalizing c with
  | zero => rfl
  | succ n ih =>
    show crc8Bits n (crc8Round c) = checksumStep^[n + 1] c
    rw [Function.iterate_succ_apply, crc8Round_eq_checksumStep c h]
    exact ih _ (checksumStep_lt c)

lemma checksumStep_iterate_lt (n c : Nat) (h : c < 256) :
    checksumStep^[n] c < 256 := by
  induction n generalizing c with
  | zero => exact h
  | succ n ih =>
    rw [Function.iterate_succ_apply]
    exact ih _ (checksumStep_lt c)

lemma crc8Core_eq_checksum_fold (l : List Nat) (c : Nat) (hc : c < 256)
    (hl : ∀ b ∈ l, b < 256) :
    crc8Core l c = l.foldl (fun c b => checksumStep^[8] ((c ^^^ b) % 256)) c := by
  induction l generalizing c with
  | nil => rfl
  | cons b rest ih =>
    have hb : b < 256 := hl b (List.mem_cons_self b rest)
    have h256 : (256 : Nat) = 2 ^ 8 := by norm_num
    have hxor : c ^^^ b < 256 := by
      rw [h256] at hc hb ⊢
      exact Nat.xor_lt_two_pow hc hb
    have hb' : b % 256 = b := Nat.mod_eq_of_lt hb
    have hx' : (c ^^^ b) % 256 = c ^^^ b := Nat.mod_eq_of_lt hxor
    show crc8Core rest (crc8Bits 8 (c ^^^ b % 256)) = _
    rw [List.foldl_cons, hb', hx', crc8Bits_eq_iterate 8 _ hxor]
    exact ih _ (checksumStep_iterate_lt 8 _ hxor)
      (fun x hx => hl x (List.mem_cons_of_mem _ hx))

/-- C1: `crc8` is a pure deterministic CRC-8 (init 0xFF, polynomial 0x31,
MSB-first, no reflection, no final XOR): on every byte span it equals the
reference polynomial-division definition `checksum` modelled from the
spec, and on the datasheet vector `[0xBE, 0xEF]` it yields `0x92`. -/
theorem crc8_matches_reference_checksum_and_datasheet_vector :
    (∀ data : List Nat, (∀ b ∈ data, b < 256) → crc8 data = checksum data) ∧
    crc8 [0xBE, 0xEF] = 0x92 := by
  constructor
  · intro data h
    unfold crc8 checksum
    exact crc8Core_eq_checksum_fold data 0xFF (by norm_num) h
  · decide

/-- Witness for C1 at the concrete span `[0xBE, 0xEF]`. -/
theorem crc8_matches_reference_checksum_witness :
    crc8 [0xBE, 0xEF] = checksum [0xBE, 0xEF] ∧ crc8 [0xBE, 0xEF] = 0x92 :=
  ⟨crc8_matches_reference_checksum_and_datasheet_vector.1 [0xBE, 0xEF] (by decide),
   crc8_matches_reference_checksum_and_datasheet_vector.2⟩

/-! ## Fault flags are independent bits -/

/-- The eight fault flags named by the claim (TD_SHT31.h lines 97-106). -/
def faultFlags : List Nat :=
  [ERROR_WRITE_LEN, ERROR_END_TRANSMISSION, ERROR_REQUEST_LEN,
   ERROR_WRONG_COMMAND, ERROR_CRC_CHECK, ERROR_NOT_CONNECTED,
   ERROR_WRONG_SENSOR_ID, ERROR_FM_TIMEOUT]

set_option maxRecDepth 8192 in
/-- C3: the eight fault flag constants (write-length, end-of-transmission,
request-length, wrong-command, CRC-check, not-connected, wrong-sensor-id,
timeout) are pairwise bitwise-disjoint, and consequently each individual
fault stays distinguishable in the OR of any combination of them. -/
theorem faultFlags_pairwise_disjoint_and_distinguishable :
    List.Pairwise (fun a b => a &&& b = 0) faultFlags ∧
    ∀ S ∈ faultFlags.sublists, ∀ f ∈ faultFlags,
      (f ∈ S ↔ (S.foldr (fun a b => a ||| b) 0) &&& f = f) := by
  decide

/-- Witness for C3: a drained accumulator holding only the write-length
fault is recognized as containing exactly that fault. -/
theorem faultFlags_disjoint_witness :
    [ERROR_WRITE_LEN] ∈ faultFlags.sublists ∧ ERROR_WRITE_LEN ∈ faultFlags ∧
    (ERROR_WRITE_LEN ∈ [ERROR_WRITE_LEN] ↔
      (([ERROR_WRITE_LEN].foldr (fun a b => a ||| b) 0) &&& ERROR_WRITE_LEN
        = ERROR_WRITE_LEN)) :=
  ⟨by decide, by decide,
   faultFlags_pairwise_disjoint_and_distinguishable.2 [ERROR_WRITE_LEN]
     (by decide) ERROR_WRITE_LEN (by decide)⟩

/-! ## clearSensorStatus return value (C4) -/

/-- C4 (documents the code bug): on a bus where `endTransmission` returns
a nonzero status, the clear-status command write fails
(`writeCommand` returns `false`), yet `clearSensorStatus` still returns
`true`, because the source executes `return 0xFFFF;` inside a
`bool`-returning function and `0xFFFF` converts to `true`. -/
theorem clearSensorStatus_returns_true_when_write_fails :
    (writeCommand ⟨2, 4, 0, 0, []⟩ initState CMD_CLEAR_STATUS).ret = false ∧
    (clearSensorStatus ⟨2, 4, 0, 0, []⟩ initState).ret = true := by
  decide

/-! ## getLastError drains and resets (C6) -/

/-- C6: after two consecutive faulting calls — a reset with an invalid
command (wrong-command fault) followed by a status read whose bus answer
is short (request-length fault) — a single `getLastError` returns the
bitwise union of both faults and resets the accumulator to `NO_ERROR`;
a second `getLastError` with no intervening fault returns zero. -/
theorem getLastError_drains_union_and_resets (w1 w2 : Wire) (s : SHT31State)
    (c : Nat) (h0 : s.error_code = NO_ERROR)
    (hc1 : c ≠ CMD_SOFT_RESET) (hc2 : c ≠ CMD_GCALL_RESET)
    (hw : w2.writeRet = 2) (he : w2.endRet = 0) (hr : w2.reqRet ≠ 3) :
    (getLastError (readSensorStatus w2 (resetSensor w1 s c).state).state).1
      = (ERROR_WRONG_COMMAND ||| ERROR_REQUEST_LEN) ∧
    (getLastError (readSensorStatus w2 (resetSensor w1 s c).state).state).2.error_code
      = NO_ERROR ∧
    (getLastError
      (getLastError (readSensorStatus w2 (resetSensor w1 s c).state).state).2).1
      = NO_ERROR := by
  simp only [resetSensor, readSensorStatus, writeCommand, readBytes, recordError,
    getLastError, hc1, hc2, hw, he, hr, ne_eq, not_false_eq_true, and_self,
    if_true, ite_true, ite_false, not_true_eq_false, if_false]
  simp [h0, NO_ERROR, hr]

/-- Witness for C6 at a concrete invalid reset command and short read. -/
theorem getLastError_drains_witness :
    (getLastError (readSensorStatus ⟨2, 0, 0, 0, []⟩
        (resetSensor ⟨2, 0, 0, 0, []⟩ initState 0x1234).state).state).1
      = (ERROR_WRONG_COMMAND ||| ERROR_REQUEST_LEN) ∧
    (getLastError (readSensorStatus ⟨2, 0, 0, 0, []⟩
        (resetSensor ⟨2, 0, 0, 0, []⟩ initState 0x1234).state).state).2.error_code
      = NO_ERROR ∧
    (getLastError (getLastError (readSensorStatus ⟨2, 0, 0, 0, []⟩
        (resetSensor ⟨2, 0, 0, 0, []⟩ initState 0x1234).state).state).2).1
      = NO_ERROR :=
  getLastError_drains_union_and_resets ⟨2, 0, 0, 0, []⟩ ⟨2, 0, 0, 0, []⟩
    initState 0x1234 (by decide) (by decide) (by decide) rfl rfl (by decide)

/-! ## resetSensor rejects invalid commands (C7) -/

/-- C7: every 16-bit command other than `CMD_SOFT_RESET` and
`CMD_GCALL_RESET` makes `resetSensor` return `false`, OR the
wrong-command fault into the accumulator, and perform no bus operation
at all (empty bus-event trace). -/
theorem resetSensor_rejects_invalid_command_without_bus_traffic
    (w : Wire) (s : SHT31State) (c : Nat) (hc : c < 65536)
    (h1 : c ≠ CMD_SOFT_RESET) (h2 : c ≠ CMD_GCALL_RESET) :
    (resetSensor w s c).ret = false ∧
    (resetSensor w s c).state = recordError s ERROR_WRONG_COMMAND ∧
    (resetSensor w s c).trace = [] := by
  simp [resetSensor, h1, h2]

/-- Witness for C7 at the spec's example command `0x1234`. -/
theorem resetSensor_rejects_witness :
    (resetSensor ⟨2, 0, 0, 0, []⟩ initState 0x1234).ret = false ∧
    (resetSensor ⟨2, 0, 0, 0, []⟩ initState 0x1234).state
      = recordError initState ERROR_WRONG_COMMAND ∧
    (resetSensor ⟨2, 0, 0, 0, []⟩ initState 0x1234).trace = [] :=
  resetSensor_rejects_invalid_command_without_bus_traffic ⟨2, 0, 0, 0, []⟩
    initState 0x1234 (by decide) (by decide) (by decide)

/-! ## readSensorStatus sentinel (C5) -/

lemma range3_map (f : Nat → Nat) : (List.range 3).map f = [f 0, f 1, f 2] :=
  rfl

lemma range6_map (f : Nat → Nat) :
    (List.range 6).map f = [f 0, f 1, f 2, f 3, f 4, f 5] :=
  rfl

/-- C5: every failure path of `readSensorStatus` — failed command write,
short read, or checksum mismatch — returns the all-ones sentinel
`0xFFFF`; on success it returns the status word assembled big-endian
from the two data bytes, never a partially-read value. -/
theorem readSensorStatus_sentinel_on_failure (w : Wire) (s : SHT31State) :
    (w.endRet ≠ 0 → (readSensorStatus w s).ret = 0xFFFF) ∧
    (w.reqRet ≠ 3 → (readSensorStatus w s).ret = 0xFFFF) ∧
    (rx w 2 ≠ crc8 [rx w 0, rx w 1] → (readSensorStatus w s).ret = 0xFFFF) ∧
    (w.endRet = 0 → w.reqRet = 3 → rx w 2 = crc8 [rx w 0, rx w 1] →
      (readSensorStatus w s).ret = (rx w 0 <<< 8) + rx w 1) := by
  by_cases he : w.endRet = 0
  · by_cases hq : w.reqRet = 3
    · by_cases hcrc : rx w 2 = crc8 [rx w 0, rx w 1]
      · exact ⟨fun h => absurd he h, fun h => absurd hq h,
          fun h => absurd hcrc h, fun _ _ _ => by
            simp [readSensorStatus, writeCommand, readBytes, he, hq, hcrc,
              range3_map]⟩
      · have hf : (readSensorStatus w s).ret = 0xFFFF := by
          simp [readSensorStatus, writeCommand, readBytes, he, hq, hcrc,
            range3_map]
        exact ⟨fun _ => hf, fun _ => hf, fun _ => hf,
          fun _ _ h => absurd h hcrc⟩
    · have hf : (readSensorStatus w s).ret = 0xFFFF := by
        simp [readSensorStatus, writeCommand, readBytes, he, hq]
      exact ⟨fun _ => hf, fun _ => hf, fun _ => hf, fun _ h => absurd h hq⟩
  · have hf : (readSensorStatus w s).ret = 0xFFFF := by
      simp [readSensorStatus, writeCommand, he]
    exact ⟨fun _ => hf, fun _ => hf, fun _ => hf, fun h => absurd h he⟩

/-- Witness for C5: a failed transmission yields the sentinel, and a
clean 3-byte response with a valid trailer yields the assembled word. -/
theorem readSensorStatus_sentinel_witness :
    (readSensorStatus ⟨2, 1, 0, 3, []⟩ initState).ret = 0xFFFF ∧
    (readSensorStatus ⟨2, 0, 0, 3, [0, 1, 176]⟩ initState).ret
      = (rx ⟨2, 0, 0, 3, [0, 1, 176]⟩ 0 <<< 8) + rx ⟨2, 0, 0, 3, [0, 1, 176]⟩ 1 :=
  ⟨(readSensorStatus_sentinel_on_failure ⟨2, 1, 0, 3, []⟩ initState).1 (by decide),
   (readSensorStatus_sentinel_on_failure ⟨2, 0, 0, 3, [0, 1, 176]⟩ initState).2.2.2
     rfl rfl (by decide)⟩

/-! ## Checksum gating (C2) -/

def wBad6 : Wire := ⟨2, 0, 0, 6, [0, 1, 99, 0, 1, 99]⟩

def wBad3 : Wire := ⟨2, 0, 0, 3, [0, 1, 99]⟩

/-- C2 counterexample: with checksum enforcement disabled
(`useCRC = false`), a status read whose trailing byte is corrupted
(`99 ≠ crc8 [0, 1] = 176`) still fails with the sentinel and records the
CRC fault — refuting "when enforcement is disabled the same bytes
produce a result with no CRC fault recorded" for `readSensorStatus`. -/
theorem status_crc_fault_despite_disabled_enforcement :
    initStateNoCrc.useCRC = false ∧
    (readSensorStatus wBad3 initStateNoCrc).ret = 0xFFFF ∧
    (readSensorStatus wBad3 initStateNoCrc).state.error_code
      = ERROR_CRC_CHECK := by
  decide

/-- C2 amended: for the measurement read (`readSensorData`) checksum
validation happens iff enforcement is enabled — enabled, a corrupted
trailer of either 16-bit field (temperature trailer byte 2 or humidity
trailer byte 5) fails the call with a CRC fault and leaves the
measurement values unsurfaced, while disabled the same bytes yield a
result with no fault recorded.  The status read (`readSensorStatus`),
however, validates the checksum unconditionally: a corrupted trailer
fails with a CRC fault regardless of the enforcement setting. -/
theorem crc_gating_measurement_iff_status_unconditional
    (w6 w3 : Wire) (s : SHT31State)
    (h6 : w6.reqRet = 6)
    (hwr3 : w3.writeRet = 2) (he3 : w3.endRet = 0) (hq3 : w3.reqRet = 3)
    (hbad3 : rx w3 2 ≠ crc8 [rx w3 0, rx w3 1]) :
    (s.useCRC = true →
      (rx w6 2 ≠ crc8 [rx w6 0, rx w6 1] ∨
        rx w6 5 ≠ crc8 [rx w6 3, rx w6 4]) →
      (readSensorData w6 s).ret = false ∧
      (readSensorData w6 s).state.error_code = s.error_code ||| ERROR_CRC_CHECK ∧
      (readSensorData w6 s).state.temperature = s.temperature ∧
      (readSensorData w6 s).state.humidity = s.humidity) ∧
    (s.useCRC = false →
      (readSensorData w6 s).ret = true ∧
      (readSensorData w6 s).state.error_code = s.error_code) ∧
    ((readSensorStatus w3 s).ret = 0xFFFF ∧
      (readSensorStatus w3 s).state.error_code
        = s.error_code ||| ERROR_CRC_CHECK) := by
  refine ⟨fun hcrc hbad => ?_, fun hnocrc => ?_, ?_⟩
  · by_cases h2 : rx w6 2 = crc8 [rx w6 0, rx w6 1]
    · rcases hbad with hb | hb
      · exact absurd h2 hb
      · simp [readSensorData, readBytes, h6, range6_map, hcrc, h2, hb,
          recordError]
    · simp [readSensorData, readBytes, h6, range6_map, hcrc, h2, recordError]
  · simp [readSensorData, readBytes, h6, range6_map, hnocrc, convertData]
  · simp [readSensorStatus, writeCommand, readBytes, recordError, hwr3, he3,
      hq3, hbad3, range3_map]

/-- A response whose first trailer is valid (`crc8 [0, 1] = 176`) and
whose second (humidity) trailer alone is corrupted. -/
def wBad5 : Wire := ⟨2, 0, 0, 6, [0, 1, 176, 0, 1, 99]⟩

/-- Witness for C2 (amended): with CRC enabled both a corrupted first
trailer and a corrupted second trailer fail the measurement read; the
same corrupted bytes pass with CRC disabled; the corrupted status
response fails even with CRC disabled. -/
theorem crc_gating_witness :
    (readSensorData wBad6 initState).ret = false ∧
    (readSensorData wBad5 initState).ret = false ∧
    (readSensorData wBad6 initStateNoCrc).ret = true ∧
    (readSensorStatus wBad3 initStateNoCrc).ret = 0xFFFF :=
  ⟨((crc_gating_measurement_iff_status_unconditional wBad6 wBad3 initState
      rfl rfl rfl rfl (by decide)).1 rfl (Or.inl (by decide))).1,
   ((crc_gating_measurement_iff_status_unconditional wBad5 wBad3 initState
      rfl rfl rfl rfl (by decide)).1 rfl (Or.inr (by decide))).1,
   ((crc_gating_measurement_iff_status_unconditional wBad6 wBad3 initStateNoCrc
      rfl rfl rfl rfl (by decide)).2.1 rfl).1,
   (crc_gating_measurement_iff_status_unconditional wBad6 wBad3 initStateNoCrc
      rfl rfl rfl rfl (by decide)).2.2.1⟩

/-! ## Frame lemmas: failures never touch the measurement fields -/

/-- `s2` agrees with `s` on everything except possibly `error_code`. -/
def sameButError (s s2 : SHT31State) : Prop :=
  s2.temperature = s.temperature ∧ s2.humidity = s.humidity ∧
  s2.useCRC = s.useCRC ∧ s2.tUnit = s.tUnit ∧ s2.addr = s.addr

lemma sameButError_trans {a b c : SHT31State}
    (h1 : sameButError a b) (h2 : sameButError b c) : sameButError a c :=
  ⟨h2.1.trans h1.1, h2.2.1.trans h1.2.1, h2.2.2.1.trans h1.2.2.1,
   h2.2.2.2.1.trans h1.2.2.2.1, h2.2.2.2.2.trans h1.2.2.2.2⟩

lemma writeCommand_frame (w : Wire) (s : SHT31State) (c : Nat) :
    sameButError s (writeCommand w s c).state := by
  by_cases he : w.endRet = 0 <;> by_cases hw : w.writeRet = 2 <;>
    simp [writeCommand, he, hw, recordError, sameButError]

lemma writeCommand_ret_true (w : Wire) (s : SHT31State) (c : Nat)
    (he : w.endRet = 0) : (writeCommand w s c).ret = true := by
  by_cases hw : w.writeRet = 2 <;> simp [writeCommand, he, hw]

lemma readSensorData_false_frame (w : Wire) (s : SHT31State)
    (h : (readSensorData w s).ret = false) :
    sameButError s (readSensorData w s).state := by
  by_cases hq : w.reqRet = 6
  · by_cases hcrc : s.useCRC = true
    · by_cases h2 : rx w 2 = crc8 [rx w 0, rx w 1]
      · by_cases h5 : rx w 5 = crc8 [rx w 3, rx w 4]
        · exact absurd h (by
            simp [readSensorData, readBytes, hq, range6_map, hcrc, h2, h5])
        · simp [readSensorData, readBytes, hq, range6_map, hcrc, h2, h5,
            recordError, sameButError]
      · simp [readSensorData, readBytes, hq, range6_map, hcrc, h2,
          recordError, sameButError]
    · simp only [Bool.not_eq_true] at hcrc
      exact absurd h (by
        simp [readSensorData, readBytes, hq, range6_map, hcrc])
  · simp [readSensorData, readBytes, hq, recordError, sameButError]

/-! ## runSingleShot failure preserves prior values (C8) -/

/-- C8: whenever `runSingleShot` fails — invalid command, failed command
write, short read, or checksum mismatch — the session's stored
temperature and humidity and the caller's output variables `fT`, `fH`
keep their prior values; partial or corrupt data is never surfaced. -/
theorem runSingleShot_failure_preserves_prior_values (w : Wire)
    (s : SHT31State) (cmd : Nat) (fT fH : ℚ)
    (h : (runSingleShot w s cmd fT fH).1 = false) :
    (runSingleShot w s cmd fT fH).2.1.temperature = s.temperature ∧
    (runSingleShot w s cmd fT fH).2.1.humidity = s.humidity ∧
    (runSingleShot w s cmd fT fH).2.2.1 = fT ∧
    (runSingleShot w s cmd fT fH).2.2.2.1 = fH := by
  by_cases hcmd : cmd ≠ CMD_SS_CSD_HIGH ∧ cmd ≠ CMD_SS_CSD_MEDIUM ∧
      cmd ≠ CMD_SS_CSD_LOW
  · simp [runSingleShot, hcmd, recordError]
  · by_cases hwr : (writeCommand w s cmd).ret = false
    · have hf := writeCommand_frame w s cmd
      simp [runSingleShot, hcmd, hwr, hf.1, hf.2.1]
    · by_cases hrd : (readSensorData w (writeCommand w s cmd).state).ret
        = false
      · have h1 := writeCommand_frame w s cmd
        have h2 := readSensorData_false_frame w (writeCommand w s cmd).state hrd
        have h3 := sameButError_trans h1 h2
        simp [runSingleShot, hcmd, hwr, hrd, h3.1, h3.2.1]
      · simp only [Bool.not_eq_false] at hrd
        exact absurd h (by
          simp [runSingleShot, hcmd, hwr, hrd])

/-- Witness for C8: a single-shot call whose 6-byte response carries a
corrupted trailer (CRC enabled) fails and leaves state and outputs as
they were. -/
theorem runSingleShot_failure_witness :
    (runSingleShot wBad6 initState CMD_SS_CSD_HIGH 21 47).1 = false ∧
    ((runSingleShot wBad6 initState CMD_SS_CSD_HIGH 21 47).2.1.temperature
        = initState.temperature ∧
      (runSingleShot wBad6 initState CMD_SS_CSD_HIGH 21 47).2.1.humidity
        = initState.humidity ∧
      (runSingleShot wBad6 initState CMD_SS_CSD_HIGH 21 47).2.2.1 = 21 ∧
      (runSingleShot wBad6 initState CMD_SS_CSD_HIGH 21 47).2.2.2.1 = 47) :=
  ⟨by decide,
   runSingleShot_failure_preserves_prior_values wBad6 initState
     CMD_SS_CSD_HIGH 21 47 (by decide)⟩

/-! ## Unit conversion (C9) -/

lemma readSensorData_true_state (w : Wire) (s : SHT31State)
    (h : (readSensorData w s).ret = true) :
    (readSensorData w s).state
      = convertData [rx w 0, rx w 1, rx w 2, rx w 3, rx w 4, rx w 5] s := by
  by_cases hq : w.reqRet = 6
  · by_cases hcrc : s.useCRC = true
    · by_cases h2 : rx w 2 = crc8 [rx w 0, rx w 1]
      · by_cases h5 : rx w 5 = crc8 [rx w 3, rx w 4]
        · simp [readSensorData, readBytes, hq, range6_map, hcrc, h2, h5]
        · exact absurd h (by
            simp [readSensorData, readBytes, hq, range6_map, hcrc, h2, h5])
      · exact absurd h (by
          simp [readSensorData, readBytes, hq, range6_map, hcrc, h2])
    · simp only [Bool.not_eq_true] at hcrc
      simp [readSensorData, readBytes, hq, range6_map, hcrc]
  · exact absurd h (by simp [readSensorData, readBytes, hq])

/-- C9: in a successfully validated measurement response with raw codes
`Tc` (bytes 0-1) and `Hc` (bytes 3-4), the stored humidity equals
`Hc * 100 / 65535` and the stored temperature equals
`Tc * 175 / 65535 − 45` in Celsius mode and `Tc * 315 / 65535 − 49` in
Fahrenheit mode, within tolerance `1/1000`, with no clamping of the
humidity value. -/
theorem conversion_formulas_within_tolerance (w : Wire) (s : SHT31State)
    (h : (readSensorData w s).ret = true) :
    |(readSensorData w s).state.humidity
      - (((rx w 3 <<< 8) + rx w 4 : Nat) : ℚ) * 100 / 65535| ≤ 1 / 1000 ∧
    (s.tUnit = true →
      |(readSensorData w s).state.temperature
        - ((((rx w 0 <<< 8) + rx w 1 : Nat) : ℚ) * 175 / 65535 - 45)|
          ≤ 1 / 1000) ∧
    (s.tUnit = false →
      |(readSensorData w s).state.temperature
        - ((((rx w 0 <<< 8) + rx w 1 : Nat) : ℚ) * 315 / 65535 - 49)|
          ≤ 1 / 1000) := by
  rw [readSensorData_true_state w s h]
  refine ⟨?_, fun ht => ?_, fun ht => ?_⟩
  · simp only [convertData, List.getD_cons_zero, List.getD_cons_succ]
    rw [mul_div_assoc]
    simp
  · simp only [convertData, List.getD_cons_zero, List.getD_cons_succ, ht,
      if_true]
    rw [mul_div_assoc]
    simp
  · simp only [convertData, List.getD_cons_zero, List.getD_cons_succ, ht,
      Bool.false_eq_true, if_false]
    rw [mul_div_assoc]
    simp

def wGood : Wire := ⟨2, 0, 0, 6, [0x6A, 0x65, 116, 0x6A, 0x65, 116]⟩

/-- Witness for C9 at response bytes `0x6A 0x65` with valid trailers,
in Celsius mode. -/
theorem conversion_formulas_witness :
    |(readSensorData wGood initState).state.humidity
      - (((rx wGood 3 <<< 8) + rx wGood 4 : Nat) : ℚ) * 100 / 65535|
        ≤ 1 / 1000 ∧
    |(readSensorData wGood initState).state.temperature
      - ((((rx wGood 0 <<< 8) + rx wGood 1 : Nat) : ℚ) * 175 / 65535 - 45)|
        ≤ 1 / 1000 :=
  ⟨(conversion_formulas_within_tolerance wGood initState (by decide)).1,
   (conversion_formulas_within_tolerance wGood initState (by decide)).2.1 rfl⟩

/-! ## Timing: conversion delay sits between write and read (C10) -/

lemma writeCommand_trace_eq (w : Wire) (s : SHT31State) (c : Nat) :
    (writeCommand w s c).trace
      = [BusEvent.beginTx s.addr,
         BusEvent.write [c % 65536 >>> 8, c % 256] w.writeRet,
         BusEvent.endTx w.endRet] := by
  by_cases he : w.endRet = 0 <;> by_cases hw : w.writeRet = 2 <;>
    simp [writeCommand, he, hw]

lemma readBytes_trace_head (w : Wire) (s : SHT31State) (len : Nat) :
    ∃ rest, (readBytes w s len).trace
      = BusEvent.requestFrom s.addr len w.reqRet :: rest := by
  by_cases hq : w.reqRet = len
  · exact ⟨((List.range len).map fun i => rx w i).map BusEvent.readByte,
      by simp [readBytes, hq]⟩
  · exact ⟨[], by simp [readBytes, hq]⟩

lemma readSensorData_trace_eq (w : Wire) (s : SHT31State) :
    (readSensorData w s).trace = (readBytes w s 6).trace := by
  simp only [readSensorData]
  rcases hx : (readBytes w s 6).ret with _ | buf
  · simp [hx]
  · simp only [hx]
    split_ifs <;> rfl

lemma readSensorData_trace_head (w : Wire) (s : SHT31State) :
    ∃ rest, (readSensorData w s).trace
      = BusEvent.requestFrom s.addr 6 w.reqRet :: rest := by
  rw [readSensorData_trace_eq]
  exact readBytes_trace_head w s 6

/-- C10: after a successful command write, `runSingleShot` issues the
blocking conversion delay — 16 ms for high repeatability, 7 ms for
medium, 5 ms for low — strictly between the command write transaction
and the 6-byte read request: the bus-event trace starts with
begin/write/end, then `delayMs d`, then immediately the `requestFrom`
of the read. -/
theorem runSingleShot_delay_between_write_and_read (w : Wire)
    (s : SHT31State) (fT fH : ℚ) (cmd d : Nat) (he : w.endRet = 0)
    (hcd : (cmd = CMD_SS_CSD_HIGH ∧ d = 16) ∨
      (cmd = CMD_SS_CSD_MEDIUM ∧ d = 7) ∨ (cmd = CMD_SS_CSD_LOW ∧ d = 5)) :
    ((runSingleShot w s cmd fT fH).2.2.2.2).take 5
      = [BusEvent.beginTx s.addr,
         BusEvent.write [cmd % 65536 >>> 8, cmd % 256] w.writeRet,
         BusEvent.endTx w.endRet,
         BusEvent.delayMs d,
         BusEvent.requestFrom s.addr 6 w.reqRet] := by
  have hwret := writeCommand_ret_true w s cmd he
  have htr := writeCommand_trace_eq w s cmd
  obtain ⟨rest, hrest⟩ := readSensorData_trace_head w (writeCommand w s cmd).state
  rw [(writeCommand_frame w s cmd).2.2.2.2] at hrest
  have hne1 : CMD_SS_CSD_MEDIUM ≠ CMD_SS_CSD_HIGH := by decide
  have hne2 : CMD_SS_CSD_LOW ≠ CMD_SS_CSD_HIGH := by decide
  have hne3 : CMD_SS_CSD_LOW ≠ CMD_SS_CSD_MEDIUM := by decide
  rcases hcd with ⟨rfl, rfl⟩ | ⟨rfl, rfl⟩ | ⟨rfl, rfl⟩ <;>
    simp [runSingleShot, hwret, htr, hrest, hne1, hne2, hne3,
      apply_ite (fun p : Bool × SHT31State × ℚ × ℚ × List BusEvent =>
        p.2.2.2.2)]

/-- Witness for C10: a concrete high-repeatability call whose write
succeeds shows the 16 ms delay between the write and the read. -/
theorem runSingleShot_delay_witness :
    ((runSingleShot wGood initState CMD_SS_CSD_HIGH 0 0).2.2.2.2).take 5
      = [BusEvent.beginTx initState.addr,
         BusEvent.write [CMD_SS_CSD_HIGH % 65536 >>> 8, CMD_SS_CSD_HIGH % 256]
           wGood.writeRet,
         BusEvent.endTx wGood.endRet,
         BusEvent.delayMs 16,
         BusEvent.requestFrom initState.addr 6 wGood.reqRet] :=
  runSingleShot_delay_between_write_and_read wGood initState 0 0
    CMD_SS_CSD_HIGH 16 rfl (Or.inl ⟨rfl, rfl⟩)
